import Mathlib

/-!
Shallow embedding of the DiscordGrinder bot (src/ai_core.py, src/discord_comm.py,
src/main.py) used to settle the specification's claims.

Python strings are modelled as lists of characters (`PyStr`); the generative
backend is modelled as an `Option` argument: `none` stands for a raised
exception in the backend call (or in reading `generation.text`), `some t` for a
successful call returning text `t`.  The Gemini model handle `self.model` is
modelled by a Boolean `modelOk` (`false` = initialization failed, handle is
`None`).
-/

/-- Python strings, modelled as lists of characters. -/
abbrev PyStr := List Char

/-- Python's `\s` whitespace class, restricted to its ASCII members, which are
the only ones the program's prompts and labels use. -/
def isPyWs (c : Char) : Bool :=
  c = ' ' || c = '\t' || c = '\n' || c = '\r' || c = '\x0b' || c = '\x0c'

/-- Python `str.strip()`: remove leading and trailing whitespace. -/
def pstrip (s : PyStr) : PyStr :=
  ((s.dropWhile isPyWs).reverse.dropWhile isPyWs).reverse

/-- Python `str.split('\n')`: split on every newline; never returns an empty
list (the empty string splits to `[[]]`). -/
def splitNl : PyStr → List PyStr
  | [] => [[]]
  | c :: rest =>
    if c = '\n' then [] :: splitNl rest
    else
      match splitNl rest with
      | [] => [[c]]
      | h :: t => (c :: h) :: t

/-- Python `text.split('\n')[-1]`: the last line of the text. -/
def lastSplitNl (s : PyStr) : PyStr :=
  (splitNl s).getLastD []

/-- ASCII lower-casing of one character (Python `str.lower()` on the ASCII
subset this program manipulates). -/
def lowerChar (c : Char) : Char :=
  if 'A' ≤ c && c ≤ 'Z' then Char.ofNat (c.toNat + 32) else c

/-- Python `str.lower()` (ASCII subset). -/
def lowerPy (s : PyStr) : PyStr :=
  s.map lowerChar

/-- Python's `pat in s` substring test. -/
def containsSub (s pat : PyStr) : Bool :=
  match s with
  | [] => pat.isEmpty
  | _ :: rest => pat.isPrefixOf s || containsSub rest pat

/-- The check `"pass" in text.lower()` from `generate_proactive_chat`. -/
def containsPass (s : PyStr) : Bool :=
  containsSub (lowerPy s) ("pass".data)

/-- Leftmost occurrence of the literal `pat` in `s` (as `re.search` finds it);
returns the suffix of `s` after that occurrence, or `none` if absent. -/
def afterFirst (s pat : PyStr) : Option PyStr :=
  match s with
  | [] => if pat.isEmpty then some [] else none
  | _ :: rest =>
    if pat.isPrefixOf s then some (s.drop pat.length)
    else afterFirst rest pat

/-- Leftmost case-insensitive occurrence of `pat` (given lower-cased) in `s`,
as `re.search` with `re.IGNORECASE` finds it; returns the suffix after it. -/
def afterFirstInsensitive (s pat : PyStr) : Option PyStr :=
  match s with
  | [] => if pat.isEmpty then some [] else none
  | _ :: rest =>
    if lowerPy (s.take pat.length) = pat then some (s.drop pat.length)
    else afterFirstInsensitive rest pat

/-- Stopping positions of the lookahead `(?=$|\n\n|\Z)` (no `re.MULTILINE`):
end of string, just before a final newline, or just before a blank line. -/
def stopsHere (l : PyStr) : Bool :=
  l.isEmpty || l = ['\n'] || l.take 2 = ['\n', '\n']

/-- The lazy group `(.*?)` of `re.search(r'Response:\s*(.*?)(?=$|\n\n|\Z)', s,
re.DOTALL)`: the shortest prefix after which the lookahead succeeds. -/
def lazyCapture : PyStr → PyStr
  | [] => []
  | c :: rest => if stopsHere (c :: rest) then [] else c :: lazyCapture rest

/-- The labeled-section extraction of `generate_reply` / `generate_random_chat`
/ `generate_response`: find `Response:` (case-sensitive), skip `\s*`, capture
lazily up to the lookahead, then `.strip()`; `none` when the label is absent. -/
def extractResponseSection (text : PyStr) : Option PyStr :=
  match afterFirst text ("Response:".data) with
  | none => none
  | some suffix => some (pstrip (lazyCapture (suffix.dropWhile isPyWs)))

/-- Lines 98-104 of src/ai_core.py (and their copies at 171-177 and 257-263):
the labeled section if found, otherwise the fallback
`response_text.split('\n')[-1].strip()`. -/
def extractFinal (text : PyStr) : PyStr :=
  match extractResponseSection text with
  | some r => r
  | none => pstrip (lastSplitNl text)

/-- `AICore.generate_reply` (src/ai_core.py lines 34-111): `None` when the
model handle is unset; `None` when the backend call raises; otherwise the
extracted final response.  The prompt inputs do not affect the control flow. -/
def generate_reply (modelOk : Bool) (backendText : Option PyStr) : Option PyStr :=
  if !modelOk then none
  else
    match backendText with
    | none => none
    | some t => some (extractFinal t)

/-- `AICore.generate_random_chat` (src/ai_core.py lines 113-184): identical
control flow to `generate_reply`. -/
def generate_random_chat (modelOk : Bool) (backendText : Option PyStr) : Option PyStr :=
  if !modelOk then none
  else
    match backendText with
    | none => none
    | some t => some (extractFinal t)

/-- `AICore.generate_response` (src/ai_core.py lines 186-270): identical
control flow to `generate_reply`. -/
def generate_response (modelOk : Bool) (backendText : Option PyStr) : Option PyStr :=
  if !modelOk then none
  else
    match backendText with
    | none => none
    | some t => some (extractFinal t)

/-- `AICore.generate_embedding` (src/ai_core.py lines 272-296): returns the
backend's embedding vector, or the empty list when the call raises.  The
numeric type of the vector entries is irrelevant to control flow. -/
def generate_embedding {α : Type} (backendEmbedding : Option (List α)) : List α :=
  match backendEmbedding with
  | none => []
  | some v => v

/-- `AICore.generate_search_query` (src/ai_core.py lines 298-328): returns the
input text unchanged when the model handle is unset, the text is empty, or the
backend raises; otherwise the backend text stripped. -/
def generate_search_query (modelOk : Bool) (text : PyStr) (backendText : Option PyStr) : PyStr :=
  if !modelOk || text.isEmpty then text
  else
    match backendText with
    | none => text
    | some q => pstrip q

/-- The proactive Response-section extraction (src/ai_core.py line 375-377):
`re.search(r'Response:\s*(.*)', text, re.DOTALL | re.IGNORECASE)` followed by
`.strip()` of the (greedy, to end of string) group. -/
def proactiveCandidate (text : PyStr) : Option PyStr :=
  match afterFirstInsensitive text ("response:".data) with
  | none => none
  | some suffix => some (pstrip (suffix.dropWhile isPyWs))

/-- The body of `generate_proactive_chat` applied to a successfully generated
text (src/ai_core.py lines 370-383): `None` when `"pass"` occurs
case-insensitively anywhere in the output; otherwise the stripped Response
section, unless it is absent or itself contains `"pass"` case-insensitively. -/
def proactiveFromText (t : PyStr) : Option PyStr :=
  if containsPass t then none
  else
    match proactiveCandidate t with
    | none => none
    | some f => if containsPass f then none else some f

/-- `AICore.generate_proactive_chat` (src/ai_core.py lines 330-386): `None`
when the model handle is unset or the context is empty; `None` when the
backend raises; otherwise `proactiveFromText` on the generated text. -/
def generate_proactive_chat (modelOk : Bool) (context : List PyStr)
    (backendText : Option PyStr) : Option PyStr :=
  if !modelOk || context.isEmpty then none
  else
    match backendText with
    | none => none
    | some t => proactiveFromText t

/-- Python `str.replace("'", "")`: drop every apostrophe (code point 39). -/
def removeApos (s : PyStr) : PyStr :=
  s.filter (fun c => c ≠ Char.ofNat 39)

/-- `AICore.classify_intent` (src/ai_core.py lines 388-419): `"unknown"` when
the model handle is unset or the backend raises; otherwise
`generation.text.strip().lower().replace("'", "")`. -/
def classify_intent (modelOk : Bool) (backendText : Option PyStr) : PyStr :=
  if !modelOk then "unknown".data
  else
    match backendText with
    | none => "unknown".data
    | some t => removeApos (lowerPy (pstrip t))

/-- The four intents the specification enumerates. -/
def enumeratedIntents : List PyStr :=
  ["question".data, "social_reply".data, "statement".data, "unknown".data]

/-- Spec-side definition, for comparison with the code's fallback: the last
line of the text that is non-empty, if any ("fall back to a best-effort
extraction (e.g., last non-empty line)"). -/
def specLastNonEmptyLine (text : PyStr) : Option PyStr :=
  (splitNl text).reverse.find? (fun l => !l.isEmpty)

/-- A fetched Discord message as `check_replies_to_message` inspects it:
`refMessageId = some mid` models a truthy `message_reference` dict carrying
`message_id` `mid`; `none` models an absent, `None`, or id-less reference. -/
structure DMessage where
  id : PyStr
  content : PyStr
  refMessageId : Option PyStr
deriving DecidableEq

/-- `DiscordCommunicator.check_replies_to_message` (src/discord_comm.py lines
156-186).  `fetched = none` models `get_messages` returning `None` (fetch
failure) or the body raising; the early `if not messages: return []` on an
empty fetch coincides with filtering the empty list. -/
def check_replies_to_message (fetched : Option (List DMessage)) (messageId : PyStr) :
    List DMessage :=
  match fetched with
  | none => []
  | some messages =>
    if messages.isEmpty then []
    else messages.filter (fun m => decide (m.refMessageId = some messageId))

/-- The page-size parameter `min(limit, 100)` that `get_messages`
(src/discord_comm.py line 71) sends to the platform. -/
def get_messages_request_limit (limit : Int) : Int :=
  min limit 100

/-- The two scheduler timestamps the main loop of src/main.py reads
(`scheduler.last_data_retrieval`, `scheduler.last_message_check`); `none`
means the activity has never run.  Times are in seconds. -/
structure SchedulerTimes where
  last_data_retrieval : Option Int
  last_message_check : Option Int
deriving DecidableEq

/-- The two activities one iteration of the main loop may run. -/
inductive Activity
  | ingestion
  | chatCheck
deriving DecidableEq

/-- The due test used by both guards of the loop body (src/main.py lines
226-227 and 231-232): `not last or (now - last).total_seconds() >= interval`. -/
def isDue (last : Option Int) (interval : Int) (now : Int) : Bool :=
  match last with
  | none => true
  | some t => interval ≤ now - t

/-- One iteration of `DiscordAIBot.run_main_loop` (src/main.py lines 223-244),
restricted to the two activity guards: `now1` is the clock reading at the
ingestion guard, `now2` at the chat guard, `now3` when `last_message_check` is
overwritten after `run_chat_logic`.  Returns the updated timestamps and the
activities run, in program order.  (`run_data_retrieval`'s own bookkeeping of
`last_data_retrieval` happens inside the scheduler, outside this loop body.) -/
def loopIteration (drInterval chatInterval : Int) (st : SchedulerTimes)
    (now1 now2 now3 : Int) : SchedulerTimes × List Activity :=
  let ingActs : List Activity :=
    if isDue st.last_data_retrieval drInterval now1 then [Activity.ingestion] else []
  if isDue st.last_message_check chatInterval now2 then
    (⟨st.last_data_retrieval, some now3⟩, ingActs ++ [Activity.chatCheck])
  else (st, ingActs)

/-- Modelled from the spec: the Timing Governor's send-gating state.  The
`Scheduler` class (scheduler.py) that owns `last_sent_message_time` and the
`can_send` check is not part of the sources; spec §3 calls this field
`last_outbound_at`, unset until the first successful send. -/
structure GovernorState where
  last_outbound_at : Option Nat

/-- Modelled from the spec: `can_send(now)` "enforces a single shared
minimum-time-between-messages floor against `last_outbound_at`, independent of
which activity wants to send" (spec §4.1). -/
def can_send (minBetween : Nat) (st : GovernorState) (now : Nat) : Bool :=
  match st.last_outbound_at with
  | none => true
  | some t => t + minBetween ≤ now

/-- Modelled from the spec: one observable event of the scheduling loop — an
outbound send at time `now` (from any activity), or a cycle that sends
nothing. -/
inductive GovEvent
  | send (now : Nat)
  | idle (now : Nat)

/-- Modelled from the spec: a successful send overwrites `last_outbound_at`
with its own timestamp ("`last_outbound_at` is updated if and only if an
outbound send succeeds", spec §3); anything else leaves the state alone. -/
def govStep (st : GovernorState) (e : GovEvent) : GovernorState :=
  match e with
  | .send now => ⟨some now⟩
  | .idle _ => st

/-- Modelled from the spec: a trace is valid when every send passes `can_send`
against the state at that point ("`can_send`/`last_outbound_at` is checked and
updated as one logical step immediately before and after each send",
spec §5). -/
def validFrom (minBetween : Nat) (st : GovernorState) : List GovEvent → Bool
  | [] => true
  | e :: rest =>
    (match e with
     | .send now => can_send minBetween st now
     | .idle _ => true) && validFrom minBetween (govStep st e) rest

/-- The timestamps of the send events of a trace, in order. -/
def sendTimes : List GovEvent → List Nat
  | [] => []
  | .send now :: rest => now :: sendTimes rest
  | .idle _ :: rest => sendTimes rest

/-- The list of lines produced by `splitNl` is never empty. -/
theorem splitNl_ne_nil (s : PyStr) : splitNl s ≠ [] := by
  cases s with
  | nil => simp [splitNl]
  | cons c rest =>
    unfold splitNl
    split
    · simp
    · split <;> simp

/-- Helper: the sentinel word itself trips the case-insensitive pass check. -/
theorem containsPass_PASS : containsPass ("PASS".data) = true := by decide

/-- Helper: searching the reversed line list for a non-empty line finds the
last line when the last line is non-empty. -/
theorem find_last_nonempty (L : List PyStr) (y : PyStr)
    (hy : L.getLast? = some y) (hne : y ≠ []) :
    L.reverse.find? (fun l => !l.isEmpty) = some y := by
  rw [← List.head?_reverse] at hy
  cases hrev : L.reverse with
  | nil => rw [hrev] at hy; simp at hy
  | cons a b =>
    rw [hrev] at hy
    simp only [List.head?, Option.some.injEq] at hy
    subst hy
    apply List.find?_cons_of_pos
    cases a with
    | nil => exact absurd rfl hne
    | cons c cs => rfl

/-- C3 (counterexample): on the text "hi\n" (which has no `Response:` label)
the fallback returns the blank last line, not the last non-empty line "hi". -/
theorem extract_fallback_counterexample :
    afterFirst ("hi\n".data) ("Response:".data) = none ∧
    generate_reply true (some ("hi\n".data)) = some [] ∧
    generate_response true (some ("hi\n".data)) = some [] ∧
    specLastNonEmptyLine ("hi\n".data) = some ("hi".data) ∧
    ("hi".data : PyStr) ≠ [] := by decide

/-- C3 (amended): when no `Response:` label occurs in the generated text,
`generate_reply` and `generate_response` fall back to the stripped final line
of the text; that line is the last non-empty line whenever it is itself
non-empty, but may be blank (e.g. for text ending in a newline) even when
non-empty lines exist. -/
theorem extract_fallback_amended (text : PyStr)
    (h : afterFirst text ("Response:".data) = none) :
    generate_reply true (some text) = some (pstrip (lastSplitNl text)) ∧
    generate_response true (some text) = some (pstrip (lastSplitNl text)) ∧
    (lastSplitNl text ≠ [] → specLastNonEmptyLine text = some (lastSplitNl text)) := by
  have he : extractFinal text = pstrip (lastSplitNl text) := by
    unfold extractFinal extractResponseSection
    rw [h]
  refine ⟨by simp [generate_reply, he], by simp [generate_response, he], ?_⟩
  intro hne
  have hg : (splitNl text).getLast? = some (lastSplitNl text) := by
    unfold lastSplitNl
    rw [List.getLastD_eq_getLast? [] (splitNl text)]
    cases hL : (splitNl text).getLast? with
    | none =>
      have : splitNl text = [] := by
        cases hE : splitNl text with
        | nil => rfl
        | cons a b => rw [hE] at hL; simp [List.getLast?_concat] at hL
      exact absurd this (splitNl_ne_nil text)
    | some y => rfl
  exact find_last_nonempty (splitNl text) (lastSplitNl text) hg hne

/-- C3 witness. -/
theorem extract_fallback_amended_witness :
    generate_reply true (some ("a\nlast line".data)) = some ("last line".data) ∧
    specLastNonEmptyLine ("a\nlast line".data) = some ("last line".data) := by
  have h := extract_fallback_amended ("a\nlast line".data) (by decide)
  refine ⟨?_, ?_⟩
  · rw [h.1]; decide
  · rw [h.2.2 (by decide)]; decide

/-- C2 (counterexample): with a working model and a backend output "banana",
`classify_intent` returns "banana", which is none of the four enumerated
intents. -/
theorem classify_intent_counterexample :
    classify_intent true (some ("banana".data)) ∉ enumeratedIntents := by decide

/-- C2 (amended): `classify_intent` returns "unknown" when the model handle is
unset or the backend call fails; on success it returns the backend text
stripped, lower-cased and with apostrophes removed, which lies in the
enumerated intent set only when the backend emitted one of those words. -/
theorem classify_intent_amended (backendText : Option PyStr) (t : PyStr) :
    classify_intent false backendText = "unknown".data ∧
    classify_intent true none = "unknown".data ∧
    classify_intent true (some t) = removeApos (lowerPy (pstrip t)) ∧
    (classify_intent true (some t) ∈ enumeratedIntents ↔
      removeApos (lowerPy (pstrip t)) ∈ enumeratedIntents) := by
  exact ⟨rfl, rfl, rfl, Iff.rfl⟩

/-- C2 witness. -/
theorem classify_intent_amended_witness :
    classify_intent false (some ("x".data)) = "unknown".data ∧
    classify_intent true (some (" Question ".data)) ∈ enumeratedIntents :=
  ⟨(classify_intent_amended (some ("x".data)) (" Question ".data)).1,
   (classify_intent_amended (some ("x".data)) (" Question ".data)).2.2.2.mpr (by decide)⟩

/-- C7: whenever the backend call raises, every AI operation returns its
non-fatal no-action value: `None` for the three text generators, the empty
vector for `generate_embedding`, and the unchanged input text for
`generate_search_query`. -/
theorem backend_error_no_action (modelOk : Bool) (text : PyStr) :
    generate_reply modelOk none = none ∧
    generate_random_chat modelOk none = none ∧
    generate_response modelOk none = none ∧
    generate_embedding (α := Int) none = [] ∧
    generate_search_query modelOk text none = text := by
  refine ⟨?_, ?_, ?_, rfl, ?_⟩ <;>
    cases modelOk <;>
    simp [generate_reply, generate_random_chat, generate_response, generate_search_query]

/-- C8: the page size `get_messages` passes to the platform is `min(limit,
100)`, hence never exceeds the platform maximum of 100 (and never exceeds the
caller's limit). -/
theorem get_messages_limit_le (limit : Int) :
    get_messages_request_limit limit ≤ 100 ∧ get_messages_request_limit limit ≤ limit :=
  ⟨min_le_right limit 100, min_le_left limit 100⟩

/-- C10: when Gemini initialization failed (model handle unset),
`classify_intent` returns "unknown" and the four generators return `None`,
independently of any backend output (so no backend call can influence the
result); `generate_proactive_chat` also returns `None` on the same guard
whenever the supplied context is empty. -/
theorem no_model_guard (backendText : Option PyStr) (context : List PyStr) (modelOk : Bool) :
    classify_intent false backendText = "unknown".data ∧
    generate_reply false backendText = none ∧
    generate_random_chat false backendText = none ∧
    generate_response false backendText = none ∧
    generate_proactive_chat false context backendText = none ∧
    generate_proactive_chat modelOk [] backendText = none := by
  refine ⟨rfl, rfl, rfl, rfl, rfl, ?_⟩
  cases modelOk <;> rfl

/-- C4: when the decided message (the extracted Response section) is the
distinguished PASS sentinel, `generate_proactive_chat` returns `None`, and no
returned proactive candidate ever equals the PASS sentinel. -/
theorem proactive_pass_sentinel (modelOk : Bool) (context : List PyStr) (t : PyStr) :
    (proactiveCandidate t = some ("PASS".data) →
      generate_proactive_chat modelOk context (some t) = none) ∧
    (∀ v, generate_proactive_chat modelOk context (some t) = some v → v ≠ "PASS".data) := by
  constructor
  · intro hc
    simp [generate_proactive_chat, proactiveFromText, hc]
    intros
    decide
  · intro v hv hveq
    subst hveq
    unfold generate_proactive_chat at hv
    split at hv
    · exact Option.noConfusion hv
    · replace hv : proactiveFromText t = some ("PASS".data) := hv
      unfold proactiveFromText at hv
      repeat' split at hv
      any_goals exact Option.noConfusion hv
      next _ hf =>
        have hsv := Option.some.inj hv
        rw [hsv] at hf
        exact hf containsPass_PASS

/-- C9: if "pass" occurs case-insensitively anywhere in the backend's full
output, `generate_proactive_chat` returns `None`; consequently every string it
does return contains no case-insensitive occurrence of "pass". -/
theorem proactive_no_pass (modelOk : Bool) (context : List PyStr) (t : PyStr) :
    (containsPass t = true → generate_proactive_chat modelOk context (some t) = none) ∧
    (∀ v, generate_proactive_chat modelOk context (some t) = some v →
      containsPass v = false) := by
  constructor
  · intro hc
    simp [generate_proactive_chat, proactiveFromText, hc]
  · intro v hv
    unfold generate_proactive_chat at hv
    split at hv
    · exact Option.noConfusion hv
    · replace hv : proactiveFromText t = some v := hv
      unfold proactiveFromText at hv
      repeat' split at hv
      any_goals exact Option.noConfusion hv
      next _ hf =>
        have hsv := Option.some.inj hv
        rw [hsv] at hf
        cases hcb : containsPass v with
        | false => rfl
        | true => exact absurd hcb hf

/-- C4 witness. -/
theorem proactive_pass_sentinel_witness :
    generate_proactive_chat true [("a".data)] (some ("Decide: No\nResponse: PASS".data)) = none ∧
    ("sounds fun".data : PyStr) ≠ "PASS".data :=
  ⟨(proactive_pass_sentinel true [("a".data)] ("Decide: No\nResponse: PASS".data)).1 (by decide),
   (proactive_pass_sentinel true [("a".data)] ("Response: sounds fun".data)).2
     ("sounds fun".data) (by decide)⟩

/-- C9 witness. -/
theorem proactive_no_pass_witness :
    generate_proactive_chat true [("b".data)] (some ("Response: my compass broke".data)) = none ∧
    containsPass ("nice weather today".data) = false :=
  ⟨(proactive_no_pass true [("b".data)] ("Response: my compass broke".data)).1 (by decide),
   (proactive_no_pass true [("b".data)] ("Response: nice weather today".data)).2
     ("nice weather today".data) (by decide)⟩

/-- C6: a message is in the result of `check_replies_to_message` exactly when
it is among the fetched messages and its reply-reference equals the given id;
a failed fetch yields the empty list. -/
theorem check_replies_filter (msgs : List DMessage) (mid : PyStr) (m : DMessage) :
    (m ∈ check_replies_to_message (some msgs) mid ↔
      m ∈ msgs ∧ m.refMessageId = some mid) ∧
    check_replies_to_message none mid = [] := by
  refine ⟨?_, rfl⟩
  cases msgs with
  | nil => simp [check_replies_to_message]
  | cons a b => simp [check_replies_to_message, List.mem_filter]

/-- C6 witness. -/
theorem check_replies_filter_witness :
    (⟨"2".data, "b".data, some ("7".data)⟩ : DMessage) ∈
      check_replies_to_message
        (some [⟨"1".data, "a".data, none⟩, ⟨"2".data, "b".data, some ("7".data)⟩])
        ("7".data) ∧
    check_replies_to_message none ("7".data) = [] :=
  ⟨(check_replies_filter [⟨"1".data, "a".data, none⟩, ⟨"2".data, "b".data, some ("7".data)⟩]
      ("7".data) ⟨"2".data, "b".data, some ("7".data)⟩).1.mpr (by decide),
   (check_replies_filter [] ("7".data) ⟨"1".data, "a".data, none⟩).2⟩

/-- Helper: the due test holds exactly when the timestamp is unset or the
interval has elapsed. -/
theorem isDue_iff (last : Option Int) (interval now : Int) :
    isDue last interval now = true ↔
      (last = none ∨ ∃ t, last = some t ∧ interval ≤ now - t) := by
  cases last <;> simp [isDue]

/-- Helper: ingestion is run exactly when its due test passes. -/
theorem loopIteration_ingestion_mem (dr ci : Int) (st : SchedulerTimes) (n1 n2 n3 : Int) :
    Activity.ingestion ∈ (loopIteration dr ci st n1 n2 n3).2 ↔
      isDue st.last_data_retrieval dr n1 = true := by
  cases hc1 : isDue st.last_data_retrieval dr n1 <;>
    cases hc2 : isDue st.last_message_check ci n2 <;>
    simp [loopIteration, hc1, hc2]

/-- Helper: the chat check is run exactly when its due test passes. -/
theorem loopIteration_chat_mem (dr ci : Int) (st : SchedulerTimes) (n1 n2 n3 : Int) :
    Activity.chatCheck ∈ (loopIteration dr ci st n1 n2 n3).2 ↔
      isDue st.last_message_check ci n2 = true := by
  cases hc1 : isDue st.last_data_retrieval dr n1 <;>
    cases hc2 : isDue st.last_message_check ci n2 <;>
    simp [loopIteration, hc1, hc2]

/-- Helper: within one iteration, ingestion always precedes the chat check. -/
theorem loopIteration_order (dr ci : Int) (st : SchedulerTimes) (n1 n2 n3 : Int) :
    ∀ i j : Nat, (loopIteration dr ci st n1 n2 n3).2.get? i = some Activity.chatCheck →
      (loopIteration dr ci st n1 n2 n3).2.get? j = some Activity.ingestion → j < i := by
  cases hc1 : isDue st.last_data_retrieval dr n1 <;>
    cases hc2 : isDue st.last_message_check ci n2 <;>
    simp only [loopIteration, hc1, hc2, if_true, if_false] <;>
    intro i j hi hj <;>
    rcases i with _ | _ | i <;> rcases j with _ | _ | j <;> simp_all

/-- C5: in one iteration of the main loop, ingestion runs exactly when its
timestamp is unset or at least `data_retrieval_interval` seconds have elapsed,
the chat check runs exactly when its timestamp is unset or at least
`chat_check_interval` seconds have elapsed, and when both run the ingestion
activity precedes the chat check. -/
theorem loop_due_checks (dr ci : Int) (st : SchedulerTimes) (n1 n2 n3 : Int) :
    (Activity.ingestion ∈ (loopIteration dr ci st n1 n2 n3).2 ↔
      (st.last_data_retrieval = none ∨
        ∃ t, st.last_data_retrieval = some t ∧ dr ≤ n1 - t)) ∧
    (Activity.chatCheck ∈ (loopIteration dr ci st n1 n2 n3).2 ↔
      (st.last_message_check = none ∨
        ∃ t, st.last_message_check = some t ∧ ci ≤ n2 - t)) ∧
    (∀ i j : Nat, (loopIteration dr ci st n1 n2 n3).2.get? i = some Activity.chatCheck →
      (loopIteration dr ci st n1 n2 n3).2.get? j = some Activity.ingestion → j < i) :=
  ⟨(loopIteration_ingestion_mem dr ci st n1 n2 n3).trans
      (isDue_iff st.last_data_retrieval dr n1),
   (loopIteration_chat_mem dr ci st n1 n2 n3).trans
      (isDue_iff st.last_message_check ci n2),
   loopIteration_order dr ci st n1 n2 n3⟩

/-- C5 witness. -/
theorem loop_due_checks_witness :
    (Activity.ingestion ∈ (loopIteration 60 30 ⟨some 0, some 0⟩ 70 40 41).2 ↔
      ((some 0 : Option Int) = none ∨
        ∃ t, (some 0 : Option Int) = some t ∧ (60 : Int) ≤ 70 - t)) ∧
    (loopIteration 60 30 ⟨some 0, some 0⟩ 70 40 41).2.get? 0 = some Activity.ingestion ∧
    (loopIteration 60 30 ⟨some 0, some 0⟩ 70 40 41).2.get? 1 = some Activity.chatCheck :=
  ⟨(loop_due_checks 60 30 ⟨some 0, some 0⟩ 70 40 41).1, by decide, by decide⟩

/-- Helper: starting from a state whose last outbound send was at time `t`,
every send a valid trace performs is at least `minBetween` after `t`. -/
theorem validFrom_send_ge (m t : Nat) (tr : List GovEvent)
    (h : validFrom m ⟨some t⟩ tr = true) :
    ∀ x ∈ sendTimes tr, t + m ≤ x := by
  induction tr generalizing t with
  | nil => intro x hx; simp [sendTimes] at hx
  | cons e rest ih =>
    cases e with
    | send now =>
      simp only [validFrom, can_send, govStep, Bool.and_eq_true, decide_eq_true_eq] at h
      obtain ⟨h1, h2⟩ := h
      intro x hx
      simp only [sendTimes, List.mem_cons] at hx
      rcases hx with rfl | hx
      · exact h1
      · exact le_trans (le_trans h1 (Nat.le_add_right now m)) (ih now h2 x hx)
    | idle now =>
      simp only [validFrom, govStep, Bool.true_and] at h
      intro x hx
      simp only [sendTimes] at hx
      exact ih t h x hx

/-- Helper: from any governor state, the send timestamps of a valid trace are
pairwise separated by at least the configured minimum. -/
theorem validFrom_pairwise (m : Nat) (st : GovernorState) (tr : List GovEvent)
    (h : validFrom m st tr = true) :
    (sendTimes tr).Pairwise (fun a b => a + m ≤ b) := by
  induction tr generalizing st with
  | nil => simp [sendTimes]
  | cons e rest ih =>
    cases e with
    | send now =>
      have h' : validFrom m ⟨some now⟩ rest = true := by
        simp only [validFrom, govStep, Bool.and_eq_true] at h
        exact h.2
      simp only [sendTimes, List.pairwise_cons]
      exact ⟨validFrom_send_ge m now rest h', ih ⟨some now⟩ h'⟩
    | idle now =>
      have h' : validFrom m st rest = true := by
        simp only [validFrom, govStep, Bool.true_and] at h
        exact h
      simpa [sendTimes] using ih st h'

/-- C1: along every valid event trace of the send governor (started fresh,
with no prior outbound send), any two outbound sends — from whichever
activities — are timestamped at least `minBetween` seconds apart. -/
theorem min_interval_between_sends (minBetween : Nat) (tr : List GovEvent)
    (h : validFrom minBetween ⟨none⟩ tr = true) :
    (sendTimes tr).Pairwise (fun a b => a + minBetween ≤ b) :=
  validFrom_pairwise minBetween ⟨none⟩ tr h

/-- C1 witness. -/
theorem min_interval_between_sends_witness :
    validFrom 600 ⟨none⟩ [GovEvent.send 0, GovEvent.idle 100, GovEvent.send 650] = true ∧
    (sendTimes [GovEvent.send 0, GovEvent.idle 100, GovEvent.send 650]).Pairwise
      (fun a b => a + 600 ≤ b) :=
  ⟨by decide,
   min_interval_between_sends 600 [GovEvent.send 0, GovEvent.idle 100, GovEvent.send 650]
     (by decide)⟩
